import Mathlib

/-!
Shallow embedding of `goose_server.py` (local HTTP server for Goose task
management) and machine-checked statements of its specification claims.

The embedding models:
  * JSON values as decoded by `json.loads` (`JVal`);
  * the in-memory task registry `TASKS` as an insertion-ordered association
    list keyed by `task_id`;
  * the task record dictionary created by `TaskHandler.do_POST`;
  * the worker `run_task`, with the external subprocess execution and the
    temporary-directory setup modelled as oracles (the rest of the function
    is translated line by line);
  * the HTTP handlers `do_POST` / `do_GET`, with a raised-and-uncaught Python
    exception modelled as the `Except.error` branch of their result.
Timestamps (`utc_now`) are passed in as opaque string parameters.
-/

namespace GooseServer

/-- JSON values, as produced by Python's `json.loads`: an object is an
insertion-ordered list of key/value pairs, numbers are modelled as integers
(no claim involves fractional values). -/
inductive JVal where
  | null : JVal
  | bool (b : Bool) : JVal
  | num (n : Int) : JVal
  | str (s : String) : JVal
  | arr (elems : List JVal) : JVal
  | obj (kvs : List (String × JVal)) : JVal
deriving Repr

/-- Key lookup in a JSON object's key/value list (first match, as for a
Python dict whose keys are unique). -/
def jLookup : List (String × JVal) → String → Option JVal
  | [], _ => none
  | (k, v) :: rest, key => if k = key then some v else jLookup rest key

/-- Python `d.get(key, default)` on a dict `d` of JSON values. -/
def dictGet (kvs : List (String × JVal)) (key : String) (default : JVal) : JVal :=
  (jLookup kvs key).getD default

/-- Python truthiness of a decoded JSON value (`if task.get("model"):`). -/
def jTruthy : JVal → Bool
  | .null => false
  | .bool b => b
  | .num n => n != 0
  | .str s => s != ""
  | .arr elems => !elems.isEmpty
  | .obj kvs => !kvs.isEmpty

/-- Python `str(...)` applied to a decoded JSON value. Container values are
abbreviated (no claim depends on the `str` of a list or dict); scalars follow
Python exactly (`str(None) = "None"`, `str(True) = "True"`, `str(7) = "7"`). -/
def pyStr : JVal → String
  | .null => "None"
  | .bool true => "True"
  | .bool false => "False"
  | .num n => toString n
  | .str s => s
  | .arr _ => "[...]"
  | .obj _ => "\x7b...\x7d"

/-- ASCII whitespace, as recognised by Python's `str.strip()` (the full
Python set also covers Unicode whitespace; the claims only involve ASCII). -/
def pyIsSpace (c : Char) : Bool :=
  c = ' ' || c = '\t' || c = '\n' || c = '\x0d' || c = '\x0b' || c = '\x0c'

/-- Strips `pyIsSpace` characters from both ends of a character list. -/
def stripChars (l : List Char) : List Char :=
  ((l.dropWhile pyIsSpace).reverse.dropWhile pyIsSpace).reverse

/-- Python `s.strip()`: the string with surrounding whitespace removed. -/
def pyStrip (s : String) : String := ⟨stripChars s.data⟩

/-- Accumulates base-10 digits; any non-digit character fails the parse. -/
def parseDigits : List Char → Nat → Option Nat
  | [], acc => some acc
  | c :: rest, acc =>
      if '0' ≤ c ∧ c ≤ '9' then parseDigits rest (acc * 10 + (c.toNat - 48))
      else none

/-- Python `int(s)` on a string: surrounding whitespace is ignored, an
optional sign is followed by at least one digit (digit-group underscores are
not modelled; no claim involves them). `none` models the `ValueError`. -/
def pyIntOfString (s : String) : Option Int :=
  match stripChars s.data with
  | [] => none
  | '+' :: rest =>
      match rest with
      | [] => none
      | _ => (parseDigits rest 0).map Int.ofNat
  | '-' :: rest =>
      match rest with
      | [] => none
      | _ => (parseDigits rest 0).map (fun n => -(n : Int))
  | l => (parseDigits l 0).map Int.ofNat

/-- Python `int(...)` applied to a decoded JSON value: ints pass through,
bools coerce to 0/1, strings are parsed as a base-10 integer after stripping
surrounding whitespace (`ValueError` otherwise), and every other type raises
`TypeError`. -/
def pyInt : JVal → Except String Int
  | .num n => .ok n
  | .bool b => .ok (if b then 1 else 0)
  | .str s =>
      match pyIntOfString s with
      | some n => .ok n
      | none => .error ("ValueError: invalid literal for int() with base 10: " ++ s)
  | _ => .error "TypeError: int() argument must be a string or a real number, not this type"

/-- A task record: the dict built in `TaskHandler.do_POST` (lines 211-228).
Fields that `do_POST` copies straight out of the request payload keep their
JSON type; fields that start as `None` and are filled in by the worker are
`Option`s. -/
structure TaskRecord where
  task_id : String
  task : String
  model : JVal
  max_turns : JVal
  max_tool_repetitions : JVal
  timeout_seconds : JVal
  status : String
  working_directory : String
  created_at : String
  updated_at : String
  started_at : Option String
  completed_at : Option String
  exit_code : Option Int
  stdout : Option String
  stderr : Option String
  error : Option String
deriving Repr

/-- The global registry `TASKS: Dict[str, dict]`, as an insertion-ordered
association list (Python dicts preserve insertion order). -/
abbrev Registry := List (String × TaskRecord)

/-- `TASKS.get(task_id)` / `task_id in TASKS`. -/
def lookupTask : Registry → String → Option TaskRecord
  | [], _ => none
  | (k, v) :: rest, key => if k = key then some v else lookupTask rest key

/-- `TASKS[task_id] = record`: replaces in place when the key exists
(preserving its position), appends otherwise — Python dict assignment. -/
def setTask : Registry → String → TaskRecord → Registry
  | [], key, v => [(key, v)]
  | (k, w) :: rest, key, v =>
      if k = key then (k, v) :: rest else (k, w) :: setTask rest key v

/-- `DEFAULT_MAX_TURNS = 40` (line 35). -/
def DEFAULT_MAX_TURNS : Int := 40

/-- `DEFAULT_MAX_TOOL_REPETITIONS = 3` (line 36). -/
def DEFAULT_MAX_TOOL_REPETITIONS : Int := 3

/-- `DEFAULT_TIMEOUT_SECONDS = 300` (line 37). -/
def DEFAULT_TIMEOUT_SECONDS : Int := 300

/-- The fixed guardrail wrapper appended by `build_task_prompt` (lines 45-51),
verbatim. -/
def guardrails : String :=
  "Important execution requirements:\n" ++
  "- Apply changes directly to files in the working directory.\n" ++
  "- Do not delegate, do not spawn background subtasks, and do not use app generators.\n" ++
  "- Use direct file edit and shell tools only.\n" ++
  "- After editing, verify by reading the target file(s).\n"

/-- `build_task_prompt` (lines 44-52): the stripped task text, a blank line,
then the guardrail block. -/
def build_task_prompt (task_text : String) : String :=
  pyStrip task_text ++ "\n\n" ++ guardrails

/-- Outcome of the external `subprocess.run(cmd, ...)` call, supplied as an
oracle: the child exited with a return code and captured output, the
wall-clock timeout expired (`subprocess.TimeoutExpired`, with possibly-absent
partial output, since `exc.stdout` / `exc.stderr` can be `None`), or the
launch itself raised some other exception (`FileNotFoundError`,
`PermissionError`, ...). -/
inductive SubprocResult where
  | exited (returncode : Int) (stdout stderr : String) : SubprocResult
  | timedOut (pOut pErr : Option String) : SubprocResult
  | launchError (msg : String) : SubprocResult
deriving Repr

/-- The external world seen by `subprocess.run`: a function of the command
line, the working directory, and the timeout. -/
abbrev Exec := List JVal → String → Int → SubprocResult

/-- The first locked block of `run_task` (lines 60-63) applied to the record:
status becomes `running`, `started_at` / `updated_at` are stamped, `error` is
reset to `None`. -/
def markRunningRecord (r : TaskRecord) (now : String) : TaskRecord :=
  { r with status := "running", started_at := some now, updated_at := now,
           error := none }

/-- The command line built in `run_task` (lines 81-92): `goose run --text
<wrapped prompt> --max-turns <str(...)> --max-tool-repetitions <str(...)>`,
extended with `--model <value>` when `task.get("model")` is truthy. The
`--model` value is appended as the raw payload value, exactly as the Python
passes `task["model"]` into the argument list. -/
def buildCmd (task : TaskRecord) : List JVal :=
  let base : List JVal :=
    [.str "goose", .str "run", .str "--text",
     .str (build_task_prompt task.task),
     .str "--max-turns", .str (pyStr task.max_turns),
     .str "--max-tool-repetitions", .str (pyStr task.max_tool_repetitions)]
  if jTruthy task.model then base ++ [.str "--model", task.model] else base

/-- The local variables `status, error, stdout, stderr, exit_code` that the
`try`/`except` ladder of `run_task` assigns (lines 96-122). -/
structure Outcome where
  status : String
  error : Option String
  stdout : String
  stderr : String
  exit_code : Int
deriving Repr

/-- Outcome classification in the `try` block of `run_task` (lines 96-122):
  * normal exit: `completed` on return code 0 with no error, `failed`
    otherwise with the fixed non-zero-exit message (lines 106-110);
  * `TimeoutExpired`: `failed`, the timeout message interpolating the
    integer timeout, `exc.stdout or ""` / `exc.stderr or ""`, code 124
    (lines 111-116);
  * any other exception: `failed`, `str(exc)`, empty output, code -1
    (lines 117-122). -/
def classifyOutcome (timeout_seconds : Int) : SubprocResult → Outcome
  | .exited rc out err =>
      { status := if rc = 0 then "completed" else "failed",
        error := if rc = 0 then none else some "goose returned non-zero exit code",
        stdout := out, stderr := err, exit_code := rc }
  | .timedOut pOut pErr =>
      { status := "failed",
        error := some ("goose timed out after " ++ toString timeout_seconds ++ " seconds"),
        stdout := pOut.getD "", stderr := pErr.getD "", exit_code := 124 }
  | .launchError msg =>
      { status := "failed", error := some msg,
        stdout := "", stderr := "", exit_code := -1 }

/-- The second locked block of `run_task` (lines 124-133): skipped entirely
when the id has vanished from the registry, otherwise writes the terminal
fields in one locked update. -/
def terminalWrite (reg : Registry) (task_id : String) (now : String)
    (status : String) (exit_code : Int) (stdout stderr : String)
    (error : Option String) : Registry :=
  match lookupTask reg task_id with
  | none => reg
  | some r =>
      setTask reg task_id
        { r with status := status, completed_at := some now, updated_at := now,
                 exit_code := some exit_code, stdout := some stdout,
                 stderr := some stderr, error := error }

/-- `run_task` (lines 55-133). Returns the final registry together with
`some exceptionMessage` when an exception escapes the worker function
uncaught (there is no handler around the whole body: only the
`subprocess.run` call sits inside a `try`). Oracles:
  * `now` stands for `utc_now()`;
  * `setupErr = some e` means the temporary-directory setup (lines 69-79:
    `TemporaryDirectory()`, `mkdir`, config copy, env construction) raised
    `e`; `none` means it succeeded — this code is outside the `try`;
  * `exec` is the subprocess world.
`int(task.get("timeout_seconds", ...))` (line 94) is also evaluated outside
the `try`, so a `ValueError`/`TypeError` there escapes the worker with the
record left as `markRunningRecord` wrote it. -/
def run_task (reg : Registry) (task_id : String) (now : String)
    (setupErr : Option String) (exec : Exec) : Registry × Option String :=
  match lookupTask reg task_id with
  | none => (reg, none)
  | some task0 =>
      let task := markRunningRecord task0 now
      let reg1 := setTask reg task_id task
      match setupErr with
      | some e => (reg1, some e)
      | none =>
          let cmd := buildCmd task
          match pyInt task.timeout_seconds with
          | .error e => (reg1, some e)
          | .ok timeout_seconds =>
              let o := classifyOutcome timeout_seconds
                (exec cmd task.working_directory timeout_seconds)
              (terminalWrite reg1 task_id now o.status o.exit_code o.stdout o.stderr o.error,
               none)

/-- The sequence of registry states visible under the lock during one
`run_task` call: the state on entry, the state after the queued-to-running
block, and (when the worker reaches it) the state after the terminal write.
`run_task_final_state` below proves the last element is exactly
`(run_task ...).1`. -/
def runStates (reg : Registry) (task_id : String) (now : String)
    (setupErr : Option String) (exec : Exec) : List Registry :=
  match lookupTask reg task_id with
  | none => [reg]
  | some task0 =>
      let task := markRunningRecord task0 now
      let reg1 := setTask reg task_id task
      match setupErr with
      | some _ => [reg, reg1]
      | none =>
          let cmd := buildCmd task
          match pyInt task.timeout_seconds with
          | .error _ => [reg, reg1]
          | .ok timeout_seconds =>
              let o := classifyOutcome timeout_seconds
                (exec cmd task.working_directory timeout_seconds)
              [reg, reg1,
               terminalWrite reg1 task_id now o.status o.exit_code o.stdout o.stderr o.error]

/-- An HTTP response as produced by `_send_json`: status code plus JSON
payload. -/
structure HttpResponse where
  code : Nat
  payload : JVal
deriving Repr

/-- The error payload shape `{"error": <message>}` used by every handler
rejection. -/
def errObj (msg : String) : JVal := .obj [("error", .str msg)]

/-- The record dict literal of `do_POST` (lines 211-228), field for field:
optional knobs are materialised with their defaults via
`payload.get(key, DEFAULT)`, status starts at `queued`, and every
worker-owned field starts as `None`. `task_text` is the already-validated
`payload.get("task")` string, stored untrimmed. -/
def mkRecord (task_id : String) (kvs : List (String × JVal)) (task_text : String)
    (working_directory : String) (now : String) : TaskRecord :=
  { task_id := task_id
    task := task_text
    model := dictGet kvs "model" .null
    max_turns := dictGet kvs "max_turns" (.num DEFAULT_MAX_TURNS)
    max_tool_repetitions := dictGet kvs "max_tool_repetitions" (.num DEFAULT_MAX_TOOL_REPETITIONS)
    timeout_seconds := dictGet kvs "timeout_seconds" (.num DEFAULT_TIMEOUT_SECONDS)
    status := "queued"
    working_directory := working_directory
    created_at := now
    updated_at := now
    started_at := none
    completed_at := none
    exit_code := none
    stdout := none
    stderr := none
    error := none }

/-- The admission tail of `do_POST` (lines 206-236), reached once `task` and
`working_directory` have been validated: reject with 400 when the working
directory does not exist on disk, otherwise create the record, insert it
into the registry, and answer 202. -/
def admitTask (reg : Registry) (kvs : List (String × JVal)) (task_text : String)
    (working_directory : String) (pathExists : String → Bool)
    (newId now : String) : HttpResponse × Registry :=
  if ¬ pathExists working_directory then
    (⟨400, errObj "working_directory does not exist"⟩, reg)
  else
    (⟨202, .obj [("task_id", .str newId), ("status", .str "queued")]⟩,
     setTask reg newId (mkRecord newId kvs task_text working_directory now))

/-- `TaskHandler.do_POST` (lines 178-236). Parameters model the ambient
world: `parsed` is the result of `_read_json_body` (`Except.error ()` for a
`json.JSONDecodeError`), `pathExists` is `Path(...).exists()`, `serverCwd`
is `str(Path.cwd())`, `newId` is the fresh `uuid.uuid4()` string, `now` is
`utc_now()`. The result carries the response and the registry after the
handler; the outer `Except.error` is an uncaught Python exception escaping
`do_POST`: the only handler inside the function is for `JSONDecodeError`, so
when the decoded body is valid JSON but not an object, the attribute access
`payload.get("task")` raises `AttributeError` and no response at all is sent
to the client. -/
def do_POST (reg : Registry) (path : String) (parsed : Except Unit JVal)
    (pathExists : String → Bool) (serverCwd : String) (newId : String)
    (now : String) : Except String (HttpResponse × Registry) :=
  if path ≠ "/tasks" then
    .ok (⟨404, errObj "not found"⟩, reg)
  else
    match parsed with
    | .error _ => .ok (⟨400, errObj "invalid json"⟩, reg)
    | .ok (.obj kvs) =>
        match dictGet kvs "task" .null with
        | .str task_text =>
            if pyStrip task_text = "" then
              .ok (⟨400, errObj "field 'task' is required"⟩, reg)
            else
              match dictGet kvs "working_directory" .null with
              | .null =>
                  .ok (admitTask reg kvs task_text serverCwd pathExists newId now)
              | .str s =>
                  if pyStrip s ≠ "" then
                    .ok (admitTask reg kvs task_text s pathExists newId now)
                  else
                    .ok (⟨400, errObj "working_directory must be a non-empty string"⟩, reg)
              | _ =>
                  .ok (⟨400, errObj "working_directory must be a non-empty string"⟩, reg)
        | _ => .ok (⟨400, errObj "field 'task' is required"⟩, reg)
    | .ok _ => .error "AttributeError: object has no attribute get"

/-- JSON serialisation of a task record, field order as in the dict literal
(`json.dumps` preserves dict insertion order; `None` becomes `null`). -/
def recordToJVal (r : TaskRecord) : JVal :=
  .obj [("task_id", .str r.task_id),
        ("task", .str r.task),
        ("model", r.model),
        ("max_turns", r.max_turns),
        ("max_tool_repetitions", r.max_tool_repetitions),
        ("timeout_seconds", r.timeout_seconds),
        ("status", .str r.status),
        ("working_directory", .str r.working_directory),
        ("created_at", .str r.created_at),
        ("updated_at", .str r.updated_at),
        ("started_at", (r.started_at.map JVal.str).getD .null),
        ("completed_at", (r.completed_at.map JVal.str).getD .null),
        ("exit_code", (r.exit_code.map JVal.num).getD .null),
        ("stdout", (r.stdout.map JVal.str).getD .null),
        ("stderr", (r.stderr.map JVal.str).getD .null),
        ("error", (r.error.map JVal.str).getD .null)]

/-- `TaskHandler.do_GET` (lines 152-176). Reads never mutate the registry,
so the result is just the response: `/health`, the full listing `/tasks`,
a single-record lookup `/tasks/<task_id>` (the id is everything after the
second slash, as with `path.split("/", 2)[2]`), and 404 otherwise. -/
def do_GET (reg : Registry) (path : String) : HttpResponse :=
  if path = "/health" then ⟨200, .obj [("status", .str "ok")]⟩
  else if path = "/tasks" then
    ⟨200, .obj [("tasks", .arr (reg.map (fun p => recordToJVal p.2)))]⟩
  else if path.startsWith "/tasks/" then
    let task_id := path.drop 7
    match lookupTask reg task_id with
    | none => ⟨404, errObj "task not found"⟩
    | some t => ⟨200, recordToJVal t⟩
  else ⟨404, errObj "not found"⟩

/-- The status values a given task id shows across a sequence of registry
states (states where the id is absent contribute nothing). -/
def statusesOf (task_id : String) (regs : List Registry) : List String :=
  regs.filterMap (fun g => (lookupTask g task_id).map TaskRecord.status)

/-- Collapses consecutive duplicates, so a list of observed statuses becomes
the sequence of distinct states visited. -/
def squash : List String → List String
  | [] => []
  | [a] => [a]
  | a :: b :: rest => if a = b then squash (b :: rest) else a :: squash (b :: rest)

/-- The field/status coupling asserted by the spec: `started_at` is set
exactly from `running` onwards, and `completed_at` / `exit_code` / `stdout` /
`stderr` are set exactly in the terminal states. -/
def fieldsInv (r : TaskRecord) : Prop :=
  (r.started_at.isSome ↔
      (r.status = "running" ∨ r.status = "completed" ∨ r.status = "failed")) ∧
  (r.completed_at.isSome ↔ (r.status = "completed" ∨ r.status = "failed")) ∧
  (r.exit_code.isSome ↔ (r.status = "completed" ∨ r.status = "failed")) ∧
  (r.stdout.isSome ↔ (r.status = "completed" ∨ r.status = "failed")) ∧
  (r.stderr.isSome ↔ (r.status = "completed" ∨ r.status = "failed"))

/-! ## Concrete inputs used by witnesses and counterexamples -/

/-- A subprocess world whose child always exits cleanly. -/
def execOk : Exec := fun _ _ _ => .exited 0 "out" "err"

/-- Payload of a minimal valid submission. -/
def sampleKvs : List (String × JVal) := [("task", .str "do it")]

/-- The record admitted for `sampleKvs`. -/
def sampleTask : TaskRecord := mkRecord "t1" sampleKvs "do it" "/srv" "T0"

/-- A registry holding just the sample record. -/
def sampleReg : Registry := [("t1", sampleTask)]

/-- Payload of a submission whose `timeout_seconds` is the string `"abc"`:
admission accepts it unvalidated, and the worker's `int(...)` then raises. -/
def c1Kvs : List (String × JVal) := [("task", .str "x"), ("timeout_seconds", .str "abc")]

/-- The registry after admitting the `c1Kvs` submission. -/
def c1Reg : Registry := [("t1", mkRecord "t1" c1Kvs "x" "/srv" "T0")]

/-! ## Registry lemmas -/

@[simp]
theorem lookup_set_same (reg : Registry) (k : String) (v : TaskRecord) :
    lookupTask (setTask reg k v) k = some v := by
  induction reg with
  | nil => simp [setTask, lookupTask]
  | cons p rest ih =>
      obtain ⟨k', w⟩ := p
      by_cases h : k' = k
      · simp [setTask, lookupTask, h]
      · simp [setTask, lookupTask, h, ih]

theorem lookup_set_other (reg : Registry) (k k' : String) (v : TaskRecord)
    (h : k ≠ k') : lookupTask (setTask reg k v) k' = lookupTask reg k' := by
  induction reg with
  | nil => simp [setTask, lookupTask, h]
  | cons p rest ih =>
      obtain ⟨k0, w⟩ := p
      by_cases hk : k0 = k
      · subst hk
        simp [setTask, lookupTask, h]
      · simp [setTask, lookupTask, hk, ih]

@[simp]
theorem markRunning_status (r : TaskRecord) (now : String) :
    (markRunningRecord r now).status = "running" := rfl

@[simp]
theorem markRunning_timeout (r : TaskRecord) (now : String) :
    (markRunningRecord r now).timeout_seconds = r.timeout_seconds := rfl

@[simp]
theorem markRunning_task (r : TaskRecord) (now : String) :
    (markRunningRecord r now).task = r.task := rfl

@[simp]
theorem markRunning_wd (r : TaskRecord) (now : String) :
    (markRunningRecord r now).working_directory = r.working_directory := rfl

@[simp]
theorem markRunning_started (r : TaskRecord) (now : String) :
    (markRunningRecord r now).started_at = some now := rfl

theorem buildCmd_markRunning (r : TaskRecord) (now : String) :
    buildCmd (markRunningRecord r now) = buildCmd r := rfl

theorem run_task_final_state (reg : Registry) (task_id now : String)
    (setupErr : Option String) (exec : Exec) :
    (run_task reg task_id now setupErr exec).1 =
      (runStates reg task_id now setupErr exec).getLastD reg := by
  cases hl : lookupTask reg task_id with
  | none => simp only [run_task, runStates, hl]; rfl
  | some task0 =>
      cases setupErr with
      | some e => simp only [run_task, runStates, hl]; rfl
      | none =>
          cases hp : pyInt (markRunningRecord task0 now).timeout_seconds with
          | error e => simp only [run_task, runStates, hl, hp]; rfl
          | ok t => simp only [run_task, runStates, hl, hp]; rfl

theorem run_task_terminal (reg : Registry) (task_id now : String)
    (task0 : TaskRecord) (t : Int) (exec : Exec)
    (hl : lookupTask reg task_id = some task0)
    (hp : pyInt task0.timeout_seconds = .ok t) :
    run_task reg task_id now none exec =
      (terminalWrite (setTask reg task_id (markRunningRecord task0 now)) task_id now
        (classifyOutcome t (exec (buildCmd task0) task0.working_directory t)).status
        (classifyOutcome t (exec (buildCmd task0) task0.working_directory t)).exit_code
        (classifyOutcome t (exec (buildCmd task0) task0.working_directory t)).stdout
        (classifyOutcome t (exec (buildCmd task0) task0.working_directory t)).stderr
        (classifyOutcome t (exec (buildCmd task0) task0.working_directory t)).error,
       none) := by
  simp only [run_task, hl, markRunning_timeout, hp, buildCmd_markRunning, markRunning_wd]

theorem terminalWrite_lookup (reg : Registry) (task_id now status : String)
    (m : TaskRecord) (ec : Int) (so se : String) (er : Option String) :
    lookupTask (terminalWrite (setTask reg task_id m) task_id now status ec so se er)
        task_id
      = some { m with status := status, completed_at := some now, updated_at := now,
                      exit_code := some ec, stdout := some so, stderr := some se,
                      error := er } := by
  simp only [terminalWrite, lookup_set_same]

theorem do_POST_registry_shape (reg : Registry) (path : String)
    (parsed : Except Unit JVal) (pe : String → Bool) (cwd newId now : String)
    (resp : HttpResponse) (reg2 : Registry)
    (h : do_POST reg path parsed pe cwd newId now = .ok (resp, reg2)) :
    reg2 = reg ∨ ∃ rec, reg2 = setTask reg newId rec := by
  simp only [do_POST, admitTask] at h
  repeat' split at h
  all_goals cases h
  all_goals
    first
    | exact Or.inl rfl
    | exact Or.inr ⟨_, rfl⟩

theorem classify_status_terminal (t : Int) (x : SubprocResult) :
    (classifyOutcome t x).status = "completed" ∨
    (classifyOutcome t x).status = "failed" := by
  cases x with
  | exited rc out err => by_cases h : rc = 0 <;> simp [classifyOutcome, h]
  | timedOut a b => simp [classifyOutcome]
  | launchError m => simp [classifyOutcome]

theorem fieldsInv_markRunning (r : TaskRecord) (now : String)
    (h : fieldsInv r) (hq : r.status = "queued") :
    fieldsInv (markRunningRecord r now) := by
  obtain ⟨h1, h2, h3, h4, h5⟩ := h
  simp only [hq] at h1 h2 h3 h4 h5
  refine ⟨?_, ?_, ?_, ?_, ?_⟩ <;>
    simp_all [markRunningRecord]

theorem fieldsInv_terminal (m : TaskRecord) (now S : String) (ec : Int)
    (so se : String) (er : Option String)
    (hS : S = "completed" ∨ S = "failed") (hst : m.started_at.isSome) :
    fieldsInv { m with status := S, completed_at := some now, updated_at := now,
                       exit_code := some ec, stdout := some so, stderr := some se,
                       error := er } := by
  rcases hS with hS | hS <;> subst hS <;>
    exact ⟨by simp [hst], by simp, by simp, by simp, by simp⟩

/-! ## Claims -/

/-- C6: the prompt handed to the agent process (third argument after
`--text` in the command line built by the worker) is exactly the
caller-supplied task text trimmed of surrounding whitespace, a blank line,
and the fixed guardrail wrapper, for every record unconditionally; the
queued-to-running transition does not alter the command line. -/
theorem C6_prompt_wrapping (t : TaskRecord) (s now : String) :
    (buildCmd t)[3]? = some (.str (build_task_prompt t.task)) ∧
    build_task_prompt s = pyStrip s ++ "\n\n" ++ guardrails ∧
    buildCmd (markRunningRecord t now) = buildCmd t := by
  refine ⟨?_, rfl, rfl⟩
  unfold buildCmd
  by_cases h : jTruthy t.model
  · simp [h]
  · simp [h]

/-- C7: a registry update addressed to a task id that is absent from the
registry is a silent no-op: the worker aborts without side effects when the
record is missing at the queued-to-running step, and the terminal write is
skipped entirely as a single update when the id is missing. -/
theorem C7_absent_id_update_noop (reg : Registry) (task_id now : String)
    (setupErr : Option String) (exec : Exec) (status : String)
    (exit_code : Int) (stdout stderr : String) (error : Option String)
    (h : lookupTask reg task_id = none) :
    run_task reg task_id now setupErr exec = (reg, none) ∧
    terminalWrite reg task_id now status exit_code stdout stderr error = reg := by
  constructor
  · simp only [run_task, h]
  · simp only [terminalWrite, h]

/-- Witness for C7 at the empty registry. -/
theorem C7_witness :
    run_task ([] : Registry) "t1" "T0" none execOk = (([] : Registry), none) ∧
    terminalWrite ([] : Registry) "t1" "T0" "failed" 124 "" "" none = ([] : Registry) :=
  C7_absent_id_update_noop [] "t1" "T0" none execOk "failed" 124 "" "" none rfl

/-- C3: when the child-process execution exceeds the task's timeout bound,
the terminal record has status `failed`, exit code 124, an error stating the
timeout duration, and stdout/stderr set to the captured partial output
(empty string when none was available). -/
theorem C3_timeout_outcome (reg : Registry) (task_id now : String)
    (task0 : TaskRecord) (t : Int) (pOut pErr : Option String) (exec : Exec)
    (hl : lookupTask reg task_id = some task0)
    (hp : pyInt task0.timeout_seconds = .ok t)
    (hexec : exec (buildCmd task0) task0.working_directory t = .timedOut pOut pErr) :
    (run_task reg task_id now none exec).2 = none ∧
    ∃ r', lookupTask (run_task reg task_id now none exec).1 task_id = some r' ∧
      r'.status = "failed" ∧
      r'.exit_code = some 124 ∧
      r'.error = some ("goose timed out after " ++ toString t ++ " seconds") ∧
      r'.stdout = some (pOut.getD "") ∧
      r'.stderr = some (pErr.getD "") := by
  have hrun := run_task_terminal reg task_id now task0 t exec hl hp
  rw [hexec] at hrun
  simp only [classifyOutcome] at hrun
  refine ⟨by rw [hrun], ?_⟩
  rw [hrun, terminalWrite_lookup]
  exact ⟨_, rfl, rfl, rfl, rfl, rfl, rfl⟩

/-- Witness for C3: a concrete registry and a subprocess world that times
out with partial stdout only. -/
theorem C3_witness :
    (run_task sampleReg "t1" "T1" none
        (fun _ _ _ => .timedOut (some "po") none)).2 = none ∧
    ∃ r', lookupTask
        (run_task sampleReg "t1" "T1" none
          (fun _ _ _ => .timedOut (some "po") none)).1 "t1" = some r' ∧
      r'.status = "failed" ∧
      r'.exit_code = some 124 ∧
      r'.error = some ("goose timed out after " ++ toString (300 : Int) ++ " seconds") ∧
      r'.stdout = some ((some "po").getD "") ∧
      r'.stderr = some ((none : Option String).getD "") :=
  C3_timeout_outcome sampleReg "t1" "T1" sampleTask 300 (some "po") none
    (fun _ _ _ => .timedOut (some "po") none) rfl rfl rfl

/-- C4: once the worker reaches the subprocess call, the outcome is
classified without crashing the worker (no exception escapes): exit code 0
gives `completed` with no error and the captured output; any non-zero exit
code gives `failed` with that exit code preserved and the fixed failure
reason; an error launching the process gives `failed` with exit code -1 and
the underlying message as the reason. -/
theorem C4_outcome_classification (reg : Registry) (task_id now : String)
    (task0 : TaskRecord) (t : Int) (exec : Exec)
    (hl : lookupTask reg task_id = some task0)
    (hp : pyInt task0.timeout_seconds = .ok t) :
    (run_task reg task_id now none exec).2 = none ∧
    (∀ out err, exec (buildCmd task0) task0.working_directory t = .exited 0 out err →
      ∃ r', lookupTask (run_task reg task_id now none exec).1 task_id = some r' ∧
        r'.status = "completed" ∧ r'.error = none ∧ r'.exit_code = some 0 ∧
        r'.stdout = some out ∧ r'.stderr = some err) ∧
    (∀ rc out err, rc ≠ 0 →
      exec (buildCmd task0) task0.working_directory t = .exited rc out err →
      ∃ r', lookupTask (run_task reg task_id now none exec).1 task_id = some r' ∧
        r'.status = "failed" ∧ r'.exit_code = some rc ∧
        r'.error = some "goose returned non-zero exit code" ∧
        r'.stdout = some out ∧ r'.stderr = some err) ∧
    (∀ msg, exec (buildCmd task0) task0.working_directory t = .launchError msg →
      ∃ r', lookupTask (run_task reg task_id now none exec).1 task_id = some r' ∧
        r'.status = "failed" ∧ r'.exit_code = some (-1) ∧ r'.error = some msg ∧
        r'.stdout = some "" ∧ r'.stderr = some "") := by
  have hrun := run_task_terminal reg task_id now task0 t exec hl hp
  refine ⟨by rw [hrun], ?_, ?_, ?_⟩
  · intro out err hexec
    rw [hexec] at hrun
    simp only [classifyOutcome, if_pos rfl] at hrun
    rw [hrun, terminalWrite_lookup]
    exact ⟨_, rfl, rfl, rfl, rfl, rfl, rfl⟩
  · intro rc out err hrc hexec
    rw [hexec] at hrun
    simp only [classifyOutcome, if_neg hrc] at hrun
    rw [hrun, terminalWrite_lookup]
    exact ⟨_, rfl, rfl, rfl, rfl, rfl, rfl⟩
  · intro msg hexec
    rw [hexec] at hrun
    simp only [classifyOutcome] at hrun
    rw [hrun, terminalWrite_lookup]
    exact ⟨_, rfl, rfl, rfl, rfl, rfl, rfl⟩

/-- Witness for C4 at a clean exit of the sample task. -/
theorem C4_witness :
    (run_task sampleReg "t1" "T1" none execOk).2 = none ∧
    ∃ r', lookupTask (run_task sampleReg "t1" "T1" none execOk).1 "t1" = some r' ∧
      r'.status = "completed" ∧ r'.error = none ∧ r'.exit_code = some 0 ∧
      r'.stdout = some "out" ∧ r'.stderr = some "err" :=
  ⟨(C4_outcome_classification sampleReg "t1" "T1" sampleTask 300 execOk rfl rfl).1,
   (C4_outcome_classification sampleReg "t1" "T1" sampleTask 300 execOk rfl rfl).2.1
     "out" "err" rfl⟩

/-- C1 fails on the code: the `try` in `run_task` only wraps the
`subprocess.run` call, so an exception raised earlier escapes the worker.
Concretely, a submission with `timeout_seconds: "abc"` is admitted with 202
(admission stores the field unvalidated), and the worker's
`int(task.get("timeout_seconds", ...))` then raises a `ValueError` outside
the `try`: the exception leaves `run_task` uncaught and the record stays in
status `running` forever, never reaching a `failed` terminal record. -/
theorem C1_counterexample :
    do_POST ([] : Registry) "/tasks" (.ok (JVal.obj c1Kvs)) (fun _ => true)
        "/srv" "t1" "T0"
      = .ok (⟨202, .obj [("task_id", .str "t1"), ("status", .str "queued")]⟩, c1Reg) ∧
    (run_task c1Reg "t1" "T1" none execOk).2
      = some "ValueError: invalid literal for int() with base 10: abc" ∧
    (lookupTask (run_task c1Reg "t1" "T1" none execOk).1 "t1").map TaskRecord.status
      = some "running" :=
  ⟨by rfl, by rfl, by rfl⟩

/-- C1 amended: exceptions raised by launching or running the child process
(including launch failures and timeouts) are caught inside the worker and
converted into a terminal `completed`/`failed` record without escaping; but
an exception raised before the subprocess call — during temporary
config-directory setup or when interpreting `timeout_seconds` — escapes the
worker uncaught and leaves the record permanently in status `running`. -/
theorem C1_exception_containment (reg : Registry) (task_id now : String)
    (task0 : TaskRecord) (exec : Exec)
    (hl : lookupTask reg task_id = some task0) :
    (∀ t, pyInt task0.timeout_seconds = .ok t →
      (run_task reg task_id now none exec).2 = none ∧
      ∃ r', lookupTask (run_task reg task_id now none exec).1 task_id = some r' ∧
        (r'.status = "completed" ∨ r'.status = "failed")) ∧
    (∀ e, pyInt task0.timeout_seconds = .error e →
      run_task reg task_id now none exec
        = (setTask reg task_id (markRunningRecord task0 now), some e)) ∧
    (∀ e, run_task reg task_id now (some e) exec
        = (setTask reg task_id (markRunningRecord task0 now), some e)) := by
  refine ⟨?_, ?_, ?_⟩
  · intro t hp
    have hrun := run_task_terminal reg task_id now task0 t exec hl hp
    refine ⟨by rw [hrun], ?_⟩
    rw [hrun, terminalWrite_lookup]
    refine ⟨_, rfl, ?_⟩
    cases hE : exec (buildCmd task0) task0.working_directory t with
    | exited rc out err =>
        by_cases hrc : rc = 0
        · exact Or.inl (by simp [classifyOutcome, hrc])
        · exact Or.inr (by simp [classifyOutcome, hrc])
    | timedOut pOut pErr => exact Or.inr (by simp [classifyOutcome])
    | launchError msg => exact Or.inr (by simp [classifyOutcome])
  · intro e hp
    simp only [run_task, hl, markRunning_timeout, hp]
  · intro e
    simp only [run_task, hl]

/-- Witness for the amended C1: the sample task with a launch failure is
contained as `failed`; the `c1Kvs` task (string `timeout_seconds`) escapes
with the record left `running`. -/
theorem C1_witness :
    ((run_task sampleReg "t1" "T1" none (fun _ _ _ => .launchError "boom")).2 = none ∧
      ∃ r', lookupTask
          (run_task sampleReg "t1" "T1" none (fun _ _ _ => .launchError "boom")).1 "t1"
          = some r' ∧ (r'.status = "completed" ∨ r'.status = "failed")) ∧
    run_task c1Reg "t1" "T1" none execOk
      = (setTask c1Reg "t1"
          (markRunningRecord (mkRecord "t1" c1Kvs "x" "/srv" "T0") "T1"),
         some "ValueError: invalid literal for int() with base 10: abc") :=
  ⟨(C1_exception_containment sampleReg "t1" "T1" sampleTask
      (fun _ _ _ => .launchError "boom") rfl).1 300 rfl,
   (C1_exception_containment c1Reg "t1" "T1" (mkRecord "t1" c1Kvs "x" "/srv" "T0")
      execOk rfl).2.1 "ValueError: invalid literal for int() with base 10: abc" (by rfl)⟩

/-- C2: a task's observable status sequence is a prefix of
`queued → running → {completed | failed}`: admission creates every record in
`queued`; across the worker's lifecycle states the id's statuses, with
consecutive duplicates collapsed, form a prefix of that chain ending in
exactly one terminal value; the worker's final registry is the last
lifecycle state (nothing follows the terminal write); and a record that has
reached a terminal status is untouched by any later admission under a fresh
id (reads, `do_GET`, return a response without mutating the registry at
all). -/
theorem C2_status_monotonic :
    (∀ id kvs s wd now, (mkRecord id kvs s wd now).status = "queued") ∧
    (∀ (reg : Registry) (task_id now : String) (r : TaskRecord)
        (setupErr : Option String) (exec : Exec),
      lookupTask reg task_id = some r → r.status = "queued" →
      squash (statusesOf task_id (runStates reg task_id now setupErr exec))
          <+: ["queued", "running", "completed"] ∨
      squash (statusesOf task_id (runStates reg task_id now setupErr exec))
          <+: ["queued", "running", "failed"]) ∧
    (∀ (reg : Registry) (task_id now : String) (setupErr : Option String)
        (exec : Exec),
      (run_task reg task_id now setupErr exec).1 =
        (runStates reg task_id now setupErr exec).getLastD reg) ∧
    (∀ (reg : Registry) (id : String) (r : TaskRecord),
      lookupTask reg id = some r →
      (r.status = "completed" ∨ r.status = "failed") →
      ∀ (path : String) (parsed : Except Unit JVal) (pe : String → Bool)
        (cwd newId now : String) (resp : HttpResponse) (reg2 : Registry),
        newId ≠ id →
        do_POST reg path parsed pe cwd newId now = .ok (resp, reg2) →
        lookupTask reg2 id = some r) := by
  refine ⟨fun id kvs s wd now => rfl, ?_,
    fun reg tid now se exec => run_task_final_state reg tid now se exec, ?_⟩
  · intro reg task_id now r se exec hl hs
    cases se with
    | some e =>
        have hst : statusesOf task_id (runStates reg task_id now (some e) exec)
            = ["queued", "running"] := by
          simp [runStates, hl, statusesOf, hs]
        exact Or.inl (by rw [hst]; exact ⟨["completed"], rfl⟩)
    | none =>
        cases hp : pyInt r.timeout_seconds with
        | error e2 =>
            have hst : statusesOf task_id (runStates reg task_id now none exec)
                = ["queued", "running"] := by
              simp [runStates, hl, hp, statusesOf, hs]
            exact Or.inl (by rw [hst]; exact ⟨["completed"], rfl⟩)
        | ok t =>
            have hst : statusesOf task_id (runStates reg task_id now none exec)
                = ["queued", "running",
                   (classifyOutcome t (exec (buildCmd r) r.working_directory t)).status] := by
              simp [runStates, hl, hp, statusesOf, hs, terminalWrite_lookup,
                buildCmd_markRunning]
            cases hE : exec (buildCmd r) r.working_directory t with
            | exited rc out err =>
                by_cases hrc : rc = 0
                · subst hrc
                  refine Or.inl ?_
                  rw [hst, hE]
                  exact ⟨[], rfl⟩
                · refine Or.inr ?_
                  rw [hst, hE]
                  simp only [classifyOutcome, if_neg hrc]
                  exact ⟨[], rfl⟩
            | timedOut pOut pErr =>
                refine Or.inr ?_
                rw [hst, hE]
                exact ⟨[], rfl⟩
            | launchError msg =>
                refine Or.inr ?_
                rw [hst, hE]
                exact ⟨[], rfl⟩
  · intro reg id r hl hterm path parsed pe cwd newId now resp reg2 hne hpost
    rcases do_POST_registry_shape reg path parsed pe cwd newId now resp reg2 hpost
      with h | ⟨rec, h⟩
    · rw [h]; exact hl
    · rw [h, lookup_set_other _ _ _ _ hne]; exact hl

/-- Witness for C2: the sample task's observed lifecycle under a clean
subprocess exit. -/
theorem C2_witness :
    squash (statusesOf "t1" (runStates sampleReg "t1" "T1" none execOk))
        <+: ["queued", "running", "completed"] ∨
    squash (statusesOf "t1" (runStates sampleReg "t1" "T1" none execOk))
        <+: ["queued", "running", "failed"] :=
  C2_status_monotonic.2.1 sampleReg "t1" "T1" sampleTask none execOk rfl rfl

/-- C9 fails on the code: a POST /tasks body that is valid JSON but not a
JSON object (here the array `[1, 2]`) passes `_read_json_body` and then
raises an uncaught `AttributeError` at `payload.get("task")`, so the client
receives no structured JSON error payload at all — the exception escapes the
handler. -/
theorem C9_nonobject_json_body_raises :
    do_POST ([] : Registry) "/tasks"
      (.ok (JVal.arr [JVal.num 1, JVal.num 2])) (fun _ => true) "/srv" "t1" "T0"
      = .error "AttributeError: object has no attribute get" := rfl

/-- C8: the field/status coupling holds at admission and after each worker
transition: `started_at` is set exactly when status has reached `running` or
a terminal state, and `completed_at` / `exit_code` / `stdout` / `stderr` are
set exactly when status is terminal — for the record as created by
`do_POST` and in every registry state the worker produces from it. -/
theorem C8_field_status_coupling :
    (∀ id kvs s wd now, fieldsInv (mkRecord id kvs s wd now)) ∧
    (∀ (reg : Registry) (task_id now : String) (setupErr : Option String)
        (exec : Exec) (r : TaskRecord),
      lookupTask reg task_id = some r → r.status = "queued" → fieldsInv r →
      ∀ g ∈ runStates reg task_id now setupErr exec,
        ∀ r', lookupTask g task_id = some r' → fieldsInv r') := by
  constructor
  · intro id kvs s wd now
    exact ⟨by simp [mkRecord], by simp [mkRecord], by simp [mkRecord],
           by simp [mkRecord], by simp [mkRecord]⟩
  · intro reg task_id now se exec r hl hq hinv g hg r' hr'
    have hmark : fieldsInv (markRunningRecord r now) :=
      fieldsInv_markRunning r now hinv hq
    have hAtReg : lookupTask reg task_id = some r' → fieldsInv r' := by
      intro h
      rw [hl] at h
      cases h
      exact hinv
    have hAtMark :
        lookupTask (setTask reg task_id (markRunningRecord r now)) task_id
            = some r' → fieldsInv r' := by
      intro h
      rw [lookup_set_same] at h
      cases h
      exact hmark
    cases se with
    | some e =>
        simp only [runStates, hl, List.mem_cons, List.not_mem_nil, or_false] at hg
        rcases hg with rfl | rfl
        · exact hAtReg hr'
        · exact hAtMark hr'
    | none =>
        cases hp : pyInt r.timeout_seconds with
        | error e2 =>
            simp only [runStates, hl, markRunning_timeout, hp, List.mem_cons,
              List.not_mem_nil, or_false] at hg
            rcases hg with rfl | rfl
            · exact hAtReg hr'
            · exact hAtMark hr'
        | ok t =>
            simp only [runStates, hl, markRunning_timeout, hp, List.mem_cons,
              List.not_mem_nil, or_false] at hg
            rcases hg with rfl | rfl | rfl
            · exact hAtReg hr'
            · exact hAtMark hr'
            · rw [terminalWrite_lookup] at hr'
              cases hr'
              exact fieldsInv_terminal _ _ _ _ _ _ _
                (classify_status_terminal _ _) (by simp [markRunningRecord])

/-- Witness for C8: the admitted sample record satisfies the coupling, via
the lifecycle conjunct applied at the first lifecycle state. -/
theorem C8_witness : fieldsInv sampleTask :=
  C8_field_status_coupling.2 sampleReg "t1" "T1" none execOk sampleTask rfl rfl
    (C8_field_status_coupling.1 "t1" sampleKvs "do it" "/srv" "T0")
    sampleReg (List.mem_cons_self _ _) sampleTask rfl

/-- C5 fails on the code for one of its listed cases: a body whose
`working_directory` is present with value `null` is "present but not a
non-empty string", yet `payload.get("working_directory")` cannot
distinguish a null value from an absent key, so the code takes the
defaulted-to-server-cwd branch and admits the task with 202, creating a
registry record — instead of the 400-without-record the claim requires. -/
theorem C5_counterexample :
    do_POST ([] : Registry) "/tasks"
        (.ok (JVal.obj [("task", .str "x"), ("working_directory", JVal.null)]))
        (fun _ => true) "/srv" "t1" "T0"
      = .ok (⟨202, .obj [("task_id", .str "t1"), ("status", .str "queued")]⟩,
             [("t1", mkRecord "t1"
                 [("task", .str "x"), ("working_directory", JVal.null)]
                 "x" "/srv" "T0")]) := by rfl

/-- C5 amended: a POST /tasks body with a missing, non-string, or
empty-after-strip `task`, or with `working_directory` present with a
non-null value that is not a non-empty string, or whose working directory
(given, or defaulted to the server's current directory when the key is
absent or null) does not exist on disk, is answered 400 with an error
payload and leaves the registry unchanged, so the task is not observable
via any subsequent GET (reads are a function of the unchanged registry). -/
theorem C5_validation_rejections (reg : Registry) (kvs : List (String × JVal))
    (pe : String → Bool) (cwd newId now : String) :
    (∀ v, dictGet kvs "task" .null = v → (∀ s, v ≠ .str s) →
      do_POST reg "/tasks" (.ok (.obj kvs)) pe cwd newId now
        = .ok (⟨400, errObj "field 'task' is required"⟩, reg)) ∧
    (∀ s, dictGet kvs "task" .null = .str s → pyStrip s = "" →
      do_POST reg "/tasks" (.ok (.obj kvs)) pe cwd newId now
        = .ok (⟨400, errObj "field 'task' is required"⟩, reg)) ∧
    (∀ s v, dictGet kvs "task" .null = .str s → pyStrip s ≠ "" →
      dictGet kvs "working_directory" .null = v → v ≠ .null →
      (∀ w, v ≠ .str w) →
      do_POST reg "/tasks" (.ok (.obj kvs)) pe cwd newId now
        = .ok (⟨400, errObj "working_directory must be a non-empty string"⟩, reg)) ∧
    (∀ s w, dictGet kvs "task" .null = .str s → pyStrip s ≠ "" →
      dictGet kvs "working_directory" .null = .str w → pyStrip w = "" →
      do_POST reg "/tasks" (.ok (.obj kvs)) pe cwd newId now
        = .ok (⟨400, errObj "working_directory must be a non-empty string"⟩, reg)) ∧
    (∀ s, dictGet kvs "task" .null = .str s → pyStrip s ≠ "" →
      dictGet kvs "working_directory" .null = .null → pe cwd = false →
      do_POST reg "/tasks" (.ok (.obj kvs)) pe cwd newId now
        = .ok (⟨400, errObj "working_directory does not exist"⟩, reg)) ∧
    (∀ s w, dictGet kvs "task" .null = .str s → pyStrip s ≠ "" →
      dictGet kvs "working_directory" .null = .str w → pyStrip w ≠ "" →
      pe w = false →
      do_POST reg "/tasks" (.ok (.obj kvs)) pe cwd newId now
        = .ok (⟨400, errObj "working_directory does not exist"⟩, reg)) := by
  refine ⟨?_, ?_, ?_, ?_, ?_, ?_⟩
  · intro v hv hns
    cases v with
    | str s => exact absurd rfl (hns s)
    | null => simp [do_POST, hv]
    | bool b => simp [do_POST, hv]
    | num n => simp [do_POST, hv]
    | arr l => simp [do_POST, hv]
    | obj o => simp [do_POST, hv]
  · intro s hv he
    simp [do_POST, hv, he]
  · intro s v hv hs hw hnn hnstr
    cases v with
    | null => exact absurd rfl hnn
    | str w => exact absurd rfl (hnstr w)
    | bool b => simp [do_POST, hv, hs, hw]
    | num n => simp [do_POST, hv, hs, hw]
    | arr l => simp [do_POST, hv, hs, hw]
    | obj o => simp [do_POST, hv, hs, hw]
  · intro s w hv hs hw hwe
    simp [do_POST, hv, hs, hw, hwe]
  · intro s hv hs hw hpe
    simp [do_POST, admitTask, hv, hs, hw, hpe]
  · intro s w hv hs hw hwne hpe
    simp [do_POST, admitTask, hv, hs, hw, hwne, hpe]

/-- Witness for the amended C5: a concrete body with an empty `task`. -/
theorem C5_witness :
    do_POST ([] : Registry) "/tasks" (.ok (.obj [("task", JVal.str "  ")]))
        (fun _ => true) "/srv" "t1" "T0"
      = .ok (⟨400, errObj "field 'task' is required"⟩, ([] : Registry)) :=
  (C5_validation_rejections [] [("task", JVal.str "  ")]
      (fun _ => true) "/srv" "t1" "T0").2.1 "  " rfl (by rfl)

/-- C10: when `max_turns`, `max_tool_repetitions`, or `timeout_seconds` is
absent from an accepted submission, the record created at admission already
holds the concrete defaults 40, 3 and 300 (not nulls deferred to execution
time): the admission inserts `mkRecord`, whose fields are materialised via
`payload.get(key, DEFAULT)`, the inserted record is what registry lookups
(and hence GET) return, and its JSON serialisation carries the literal
default values. -/
theorem C10_defaults_materialized (reg : Registry) (kvs : List (String × JVal))
    (pe : String → Bool) (cwd newId now s : String)
    (h1 : jLookup kvs "max_turns" = none)
    (h2 : jLookup kvs "max_tool_repetitions" = none)
    (h3 : jLookup kvs "timeout_seconds" = none)
    (htask : dictGet kvs "task" .null = .str s)
    (hs : pyStrip s ≠ "")
    (hwd : dictGet kvs "working_directory" .null = .null)
    (hpe : pe cwd = true) :
    do_POST reg "/tasks" (.ok (.obj kvs)) pe cwd newId now
      = .ok (⟨202, .obj [("task_id", .str newId), ("status", .str "queued")]⟩,
             setTask reg newId (mkRecord newId kvs s cwd now)) ∧
    (mkRecord newId kvs s cwd now).max_turns = .num 40 ∧
    (mkRecord newId kvs s cwd now).max_tool_repetitions = .num 3 ∧
    (mkRecord newId kvs s cwd now).timeout_seconds = .num 300 ∧
    lookupTask (setTask reg newId (mkRecord newId kvs s cwd now)) newId
      = some (mkRecord newId kvs s cwd now) ∧
    (∃ l, recordToJVal (mkRecord newId kvs s cwd now) = .obj l ∧
      jLookup l "max_turns" = some (.num 40) ∧
      jLookup l "max_tool_repetitions" = some (.num 3) ∧
      jLookup l "timeout_seconds" = some (.num 300)) := by
  refine ⟨?_, ?_, ?_, ?_, lookup_set_same _ _ _, ?_⟩
  · simp [do_POST, admitTask, htask, hs, hwd, hpe]
  · simp [mkRecord, dictGet, h1, DEFAULT_MAX_TURNS]
  · simp [mkRecord, dictGet, h2, DEFAULT_MAX_TOOL_REPETITIONS]
  · simp [mkRecord, dictGet, h3, DEFAULT_TIMEOUT_SECONDS]
  · refine ⟨_, rfl, ?_, ?_, ?_⟩ <;>
      simp [recordToJVal, mkRecord, dictGet, h1, h2, h3, jLookup,
        DEFAULT_MAX_TURNS, DEFAULT_MAX_TOOL_REPETITIONS, DEFAULT_TIMEOUT_SECONDS]

/-- Witness for C10 at a body carrying only a `task` field. -/
theorem C10_witness :
    do_POST ([] : Registry) "/tasks" (.ok (.obj sampleKvs))
        (fun _ => true) "/srv" "t1" "T0"
      = .ok (⟨202, .obj [("task_id", .str "t1"), ("status", .str "queued")]⟩,
             setTask [] "t1" (mkRecord "t1" sampleKvs "do it" "/srv" "T0")) ∧
    (mkRecord "t1" sampleKvs "do it" "/srv" "T0").max_turns = .num 40 ∧
    (mkRecord "t1" sampleKvs "do it" "/srv" "T0").max_tool_repetitions = .num 3 ∧
    (mkRecord "t1" sampleKvs "do it" "/srv" "T0").timeout_seconds = .num 300 ∧
    lookupTask (setTask [] "t1" (mkRecord "t1" sampleKvs "do it" "/srv" "T0")) "t1"
      = some (mkRecord "t1" sampleKvs "do it" "/srv" "T0") ∧
    (∃ l, recordToJVal (mkRecord "t1" sampleKvs "do it" "/srv" "T0") = .obj l ∧
      jLookup l "max_turns" = some (.num 40) ∧
      jLookup l "max_tool_repetitions" = some (.num 3) ∧
      jLookup l "timeout_seconds" = some (.num 300)) :=
  C10_defaults_materialized [] sampleKvs (fun _ => true) "/srv" "t1" "T0" "do it"
    rfl rfl rfl rfl (by decide) rfl rfl

end GooseServer
